import Mathlib

/-!
# Shallow embedding of `excimer_timer.c`

This file embeds the timer registry and cross-thread event-delivery core of
the excimer module (`src/excimer_timer.c`) and proves properties of it.

Modelling conventions:

* `struct timespec` becomes `Timespec` with integer fields.
* Zend hash tables keyed by `zend_ulong` become association lists
  `List (Nat × α)` in insertion order; `zend_hash_index_add` inserts only if
  the key is absent (the C function fails and leaves the table unchanged on a
  duplicate key), `zend_hash_index_del` removes the entry, and
  `ZEND_HASH_FOREACH` iterates in insertion order.
* Timer structs live behind pointers; the heap is a total map from pointer
  names (`Nat`) to `Timer` records.  `memset(timer, 0, ...)` writes the
  all-zero record.
* The per-thread TLS block (`excimer_timer_tls`) is a total map from thread
  identities (`Nat`) to `ThreadState`.  The C pointer
  `&excimer_timer_tls.event_counts` stored in `timer->event_counts_ptr` is
  modelled as the owning thread's identity (`Option Nat`, `none` for `NULL`);
  `timer->thread_mutex_ptr` likewise records that identity.
* The global mutex and the thread mutexes order the handlers; the sequential
  embedding records each acquisition/release (and every other externally
  visible step, including `php_error_docref` diagnostics and calls into the
  OS-timer collaborator) as an `Action` in a trace, so temporal claims become
  claims about traces.
* Results of the external OS-timer collaborator
  (`excimer_os_timer_create/start/get_overrun_count/get_time`) are inputs.
* `zend_long` counts are modelled as `Int`.
-/

namespace Excimer

/-- `struct timespec`. -/
structure Timespec where
  tv_sec : Int
  tv_nsec : Int
deriving DecidableEq, Repr

/-- `excimer_timer_is_zero`: `ts->tv_sec == 0 && ts->tv_nsec == 0`. -/
def excimer_timer_is_zero (ts : Timespec) : Bool :=
  ts.tv_sec == 0 && ts.tv_nsec == 0

/-- `zend_hash_index_find`: look a key up in an association list. -/
def alookup {α : Type} : List (Nat × α) → Nat → Option α
  | [], _ => none
  | e :: l, k => if e.1 = k then some e.2 else alookup l k

/-- `zend_hash_index_add`: insert only if the key is absent (on a duplicate
key the C function fails and the table is unchanged; the callers here ignore
the return value). -/
def ainsert {α : Type} (l : List (Nat × α)) (k : Nat) (v : α) : List (Nat × α) :=
  match alookup l k with
  | some _ => l
  | none => l ++ [(k, v)]

/-- In-place update of the value stored at a key (`Z_LVAL_P(zp) += ...`
mutates the bucket, keeping its iteration position). -/
def aset {α : Type} (l : List (Nat × α)) (k : Nat) (v : α) : List (Nat × α) :=
  l.map fun e => if e.1 = k then (k, v) else e

/-- `zend_hash_index_del`: remove the entry with the given key. -/
def adel {α : Type} (l : List (Nat × α)) (k : Nat) : List (Nat × α) :=
  l.filter fun e => e.1 ≠ k

/-- The `excimer_timer` struct.  `callback` and `user_data` are opaque
tokens; the callback's meaning is supplied to the interrupt handler as a
semantic function.  `event_counts_ptr : Option Nat` stands for
`HashTable **event_counts_ptr` (`some t` = `&tls(t).event_counts`,
`none` = `NULL`); `thread_mutex_ptr` records the same thread identity. -/
structure Timer where
  id : Nat
  is_valid : Bool
  is_running : Bool
  callback : Nat
  user_data : Nat
  event_counts_ptr : Option Nat
  thread_mutex_ptr : Nat
deriving DecidableEq, Repr

/-- `memset(timer, 0, sizeof(excimer_timer))`. -/
def Timer.zeroed : Timer :=
  { id := 0, is_valid := false, is_running := false, callback := 0,
    user_data := 0, event_counts_ptr := none, thread_mutex_ptr := 0 }

/-- One thread's `excimer_timer_tls` block: the event-count accumulator and
the thread-local timer table. -/
structure ThreadState where
  event_counts : List (Nat × Int)
  timers_by_id : List (Nat × Nat)
deriving DecidableEq, Repr

/-- The whole mutable state: `excimer_timer_globals` (registry + next-ID
counter + the saved previous interrupt hook, as a flag), the timer heap, all
TLS blocks, and `EG(vm_interrupt)`. -/
structure State where
  g_timers_by_id : List (Nat × Nat)
  next_id : Nat
  heap : Nat → Timer
  threads : Nat → ThreadState
  vm_interrupt : Bool
  old_handler : Bool

/-- The diagnostics the module can emit via `php_error_docref`. -/
inductive Diag where
  /-- "Unable to start uninitialised timer" -/
  | startUninitialised
  /-- "Unable to start timer with a value of zero duration and period" -/
  | startZeroDuration
  /-- "Cannot delete a timer belonging to a different thread" -/
  | wrongThread
  /-- "Timer ID counter has overflowed" -/
  | idOverflow
deriving DecidableEq, Repr

/-- Externally visible steps, recorded in order of execution. -/
inductive Action where
  | lockGlobal
  | unlockGlobal
  | lockThread
  | unlockThread
  | osTimerCreate
  | osTimerStart (period initial : Timespec)
  | osTimerStop
  | osTimerDelete
  | globalAdd (id : Nat)
  | globalDel (id : Nat)
  | threadAddTimer (id : Nat)
  | clearRunning
  | markInvalid
  | threadDelEventCount (id : Nat)
  | threadDelTimer (id : Nat)
  | swapAccumulator
  | freeAccumulator
  | addEventCount (id : Nat) (n : Int)
  | setInterruptFlag
  | invokeCallback (id : Nat) (count : Int)
  | chainOldHandler
  | diagnostic (d : Diag)
deriving DecidableEq, Repr

/-- Update the timer record at pointer `p`. -/
def updHeap (st : State) (p : Nat) (f : Timer → Timer) : State :=
  { st with heap := fun q => if q = p then f (st.heap q) else st.heap q }

/-- Update thread `t`'s TLS block. -/
def updThread (st : State) (t : Nat) (f : ThreadState → ThreadState) : State :=
  { st with threads := fun u => if u = t then f (st.threads u) else st.threads u }

/-- `excimer_timer_init(timer, event_type, callback, user_data)`.

`tid` is the calling thread, `p` the caller-provided timer struct,
`osCreateOk` the outcome of `excimer_os_timer_create` (an external
collaborator).  Returns the new state, `SUCCESS`/`FAILURE` as a `Bool`, and
the trace.  Mirrors lines 106-139 of the source: memset, record the
back-references, allocate the ID under the global lock (failing on wrap to
zero), register globally and thread-locally, create the OS timer, and only
then set `is_valid = 1` / `is_running = 0`. -/
def excimer_timer_init (st : State) (tid : Nat) (p : Nat)
    (event_type : Nat) (callback user_data : Nat) (osCreateOk : Bool) :
    State × Bool × List Action :=
  let t0 : Timer :=
    { Timer.zeroed with
        callback := callback, user_data := user_data,
        event_counts_ptr := some tid, thread_mutex_ptr := tid }
  let id := st.next_id % 2 ^ 64
  let st1 : State :=
    { st with
        next_id := (st.next_id + 1) % 2 ^ 64,
        heap := fun q => if q = p then { t0 with id := id } else st.heap q }
  if id = 0 then
    (st1, false, [Action.lockGlobal, Action.unlockGlobal,
                  Action.diagnostic Diag.idOverflow])
  else
    let st2 := { st1 with g_timers_by_id := ainsert st1.g_timers_by_id id p }
    let st3 := updThread st2 tid fun ts =>
      { ts with timers_by_id := ainsert ts.timers_by_id id p }
    let tr := [Action.lockGlobal, Action.globalAdd id, Action.unlockGlobal,
               Action.threadAddTimer id, Action.osTimerCreate]
    if osCreateOk then
      (updHeap st3 p (fun t => { t with is_valid := true, is_running := false }),
       true, tr)
    else
      (st3, false, tr)

/-- `excimer_timer_start(timer, period, initial)`.

`osStartOk` is the outcome of `excimer_os_timer_start`.  Mirrors lines
141-164: refuse an invalid timer; substitute `period` for an all-zero
`initial`; refuse if the effective initial value is still zero; otherwise
start the OS timer and set `is_running = 1` only on success. -/
def excimer_timer_start (st : State) (p : Nat)
    (period initial : Timespec) (osStartOk : Bool) : State × List Action :=
  let t := st.heap p
  if !t.is_valid then
    (st, [Action.diagnostic Diag.startUninitialised])
  else
    let initial1 := if excimer_timer_is_zero initial then period else initial
    if excimer_timer_is_zero initial1 then
      (st, [Action.diagnostic Diag.startZeroDuration])
    else if osStartOk then
      (updHeap st p fun t => { t with is_running := true },
       [Action.osTimerStart period initial1])
    else
      (st, [Action.osTimerStart period initial1])

/-- `excimer_timer_destroy(timer)` called from thread `tid`.

Mirrors lines 166-203: return immediately if invalid; refuse with a
diagnostic if `timer->event_counts_ptr != &excimer_timer_tls.event_counts`;
otherwise clear `is_running` and stop the OS timer if running, delete the ID
from the global registry under the global lock, mark invalid and null the
accumulator back-reference, delete the accumulator and thread-table entries
under the thread-local lock, and finally delete the OS timer. -/
def excimer_timer_destroy (st : State) (tid : Nat) (p : Nat) :
    State × List Action :=
  let t := st.heap p
  if !t.is_valid then
    (st, [])
  else if t.event_counts_ptr ≠ some tid then
    (st, [Action.diagnostic Diag.wrongThread])
  else
    let stopTr := if t.is_running then [Action.clearRunning, Action.osTimerStop] else []
    let st1 := if t.is_running then updHeap st p (fun u => { u with is_running := false }) else st
    let st2 := { st1 with g_timers_by_id := adel st1.g_timers_by_id t.id }
    let st3 := updHeap st2 p fun u => { u with is_valid := false, event_counts_ptr := none }
    let st4 := updThread st3 tid fun ts =>
      { ts with
          event_counts := adel ts.event_counts t.id,
          timers_by_id := adel ts.timers_by_id t.id }
    (st4, stopTr ++
      [Action.lockGlobal, Action.globalDel t.id, Action.unlockGlobal,
       Action.markInvalid,
       Action.lockThread, Action.threadDelEventCount t.id,
       Action.threadDelTimer t.id, Action.unlockThread,
       Action.osTimerDelete])

/-- The accumulator update at lines 226-233: add `v` to the entry for `id`,
creating it with value `v` if absent. -/
def bump (ec : List (Nat × Int)) (id : Nat) (v : Int) : List (Nat × Int) :=
  match alookup ec id with
  | none => ec ++ [(id, v)]
  | some c => aset ec id (c + v)

/-- `excimer_timer_handle(sv)`, the notification handler, for timer ID `id`
with OS-reported overrun count `overrun`
(`excimer_os_timer_get_overrun_count`).  Mirrors lines 205-238: under the
global lock look the timer up; if absent or not running, drop the event;
otherwise, under the timer's thread mutex, add `overrun + 1` into the
owning thread's accumulator and set the VM interrupt flag.

The `none` branch of `event_counts_ptr` is unreachable in states produced by
the operations here (a registered running timer has a live back-reference);
in C it would dereference a null pointer. -/
def excimer_timer_handle (st : State) (id : Nat) (overrun : Int) :
    State × List Action :=
  match alookup st.g_timers_by_id id with
  | none => (st, [Action.lockGlobal, Action.unlockGlobal])
  | some p =>
    let t := st.heap p
    if !t.is_running then
      (st, [Action.lockGlobal, Action.unlockGlobal])
    else
      match t.event_counts_ptr with
      | none => (st, [Action.lockGlobal])
      | some tacc =>
        let ec := overrun + 1
        let st1 := updThread st tacc fun ts =>
          { ts with event_counts := bump ts.event_counts id ec }
        ({ st1 with vm_interrupt := true },
         [Action.lockGlobal, Action.lockThread, Action.addEventCount id ec,
          Action.setInterruptFlag, Action.unlockThread, Action.unlockGlobal])

/-- The semantics of the user callbacks: given the timer's `callback` token,
the delivered count and the `user_data` token, a state transformer.  The C
callbacks run arbitrary code on the owning thread (they may create and
destroy timers), so the interrupt handler is parametric in this. -/
def CbSem : Type :=
  Nat → Int → Nat → State → State

/-- The `ZEND_HASH_FOREACH_NUM_KEY_VAL` loop of `excimer_timer_interrupt`
(lines 252-260): for each `(id, count)` of the swapped-out accumulator, look
the timer up in the thread-local table and, if still present, invoke its
callback with the count and its `user_data`. -/
def interruptDrain (cb : CbSem) (tid : Nat) :
    List (Nat × Int) → State → State × List Action
  | [], st => (st, [])
  | (id, cnt) :: rest, st =>
    match alookup (st.threads tid).timers_by_id id with
    | none => interruptDrain cb tid rest st
    | some p =>
      let t := st.heap p
      let st1 := cb t.callback cnt t.user_data st
      let r := interruptDrain cb tid rest st1
      (r.1, Action.invokeCallback id cnt :: r.2)

/-- `excimer_timer_interrupt(execute_data)` on thread `tid`.  Mirrors lines
240-268: under the thread-local lock swap the accumulator for a fresh empty
one; outside any lock drain the old accumulator through `interruptDrain`;
free the old accumulator; chain to the previously installed interrupt
function if there was one. -/
def excimer_timer_interrupt (cb : CbSem) (st : State) (tid : Nat) :
    State × List Action :=
  let old := (st.threads tid).event_counts
  let st1 := updThread st tid fun ts => { ts with event_counts := [] }
  let r := interruptDrain cb tid old st1
  (r.1, [Action.lockThread, Action.swapAccumulator, Action.unlockThread] ++
        r.2 ++ [Action.freeAccumulator] ++
        (if r.1.old_handler then [Action.chainOldHandler] else []))

/-- `excimer_timer_get_time(timer, remaining)`: zero if invalid or not
running, otherwise the OS-reported remaining time (`osRemaining`, from
`excimer_os_timer_get_time`). -/
def excimer_timer_get_time (st : State) (p : Nat) (osRemaining : Timespec) :
    Timespec :=
  let t := st.heap p
  if !t.is_valid || !t.is_running then ⟨0, 0⟩ else osRemaining

/-- Iterated notification-handler firings for one timer ID, one per element
of `os` (the OS-reported overrun count of each firing), in order. -/
def handleMany (st : State) (id : Nat) (os : List Int) : State :=
  os.foldl (fun s o => (excimer_timer_handle s id o).1) st

/-- `sum (o_i + 1)` over a list of overrun counts. -/
def totalCount (os : List Int) : Int :=
  (os.map fun o => o + 1).sum

/-- The `(id, count)` pairs delivered to callbacks, read off a trace. -/
def invokedPairs (tr : List Action) : List (Nat × Int) :=
  tr.filterMap fun a =>
    match a with
    | Action.invokeCallback id c => some (id, c)
    | _ => none

/-! Concrete sample states, used to evaluate the theorems below on closed
inputs. -/

/-- The state right after `excimer_timer_module_init` and
`excimer_timer_thread_init`: empty registry, counter at 1, zeroed heap,
empty TLS blocks. -/
def initState : State :=
  { g_timers_by_id := [], next_id := 1, heap := fun _ => Timer.zeroed,
    threads := fun _ => { event_counts := [], timers_by_id := [] },
    vm_interrupt := false, old_handler := false }

/-- `initState` with the ID counter at its wrap-around point. -/
def overflowState : State :=
  { initState with next_id := 0 }

/-- A valid, running timer with ID 1 owned by thread 0. -/
def sampleTimer : Timer :=
  { id := 1, is_valid := true, is_running := true, callback := 5,
    user_data := 7, event_counts_ptr := some 0, thread_mutex_ptr := 0 }

/-- A state in which `sampleTimer` lives at heap pointer 4 and is registered
both globally and in thread 0's table; thread 0's accumulator is empty. -/
def sampleState : State :=
  { g_timers_by_id := [(1, 4)], next_id := 2,
    heap := fun q => if q = 4 then sampleTimer else Timer.zeroed,
    threads := fun _ => { event_counts := [], timers_by_id := [(1, 4)] },
    vm_interrupt := false, old_handler := false }

/-- `sampleState` with two pending accumulator entries in thread 0, only the
first of which still has a live timer in the thread-local table. -/
def drainState : State :=
  updThread sampleState 0 fun ts => { ts with event_counts := [(1, 3), (2, 5)] }

/-- A callback semantics that does nothing (a pure observer callback). -/
def cbId : CbSem := fun _ _ _ s => s

/-! ## Basic lemmas about the state and table operations -/

@[simp]
theorem updHeap_g_timers (st : State) (p : Nat) (f : Timer → Timer) :
    (updHeap st p f).g_timers_by_id = st.g_timers_by_id := rfl

@[simp]
theorem updHeap_threads (st : State) (p : Nat) (f : Timer → Timer) :
    (updHeap st p f).threads = st.threads := rfl

@[simp]
theorem updHeap_heap_self (st : State) (p : Nat) (f : Timer → Timer) :
    (updHeap st p f).heap p = f (st.heap p) := by
  simp [updHeap]

@[simp]
theorem updThread_g_timers (st : State) (t : Nat) (f : ThreadState → ThreadState) :
    (updThread st t f).g_timers_by_id = st.g_timers_by_id := rfl

@[simp]
theorem updThread_heap (st : State) (t : Nat) (f : ThreadState → ThreadState) :
    (updThread st t f).heap = st.heap := rfl

@[simp]
theorem updThread_next_id (st : State) (t : Nat) (f : ThreadState → ThreadState) :
    (updThread st t f).next_id = st.next_id := rfl

@[simp]
theorem updThread_threads_self (st : State) (t : Nat) (f : ThreadState → ThreadState) :
    (updThread st t f).threads t = f (st.threads t) := by
  simp [updThread]

theorem updThread_threads_other (st : State) (t u : Nat) (f : ThreadState → ThreadState)
    (h : u ≠ t) : (updThread st t f).threads u = st.threads u := by
  simp [updThread, h]

@[simp]
theorem alookup_nil {α : Type} (k : Nat) : alookup ([] : List (Nat × α)) k = none := rfl

theorem alookup_adel_self {α : Type} (l : List (Nat × α)) (k : Nat) :
    alookup (adel l k) k = none := by
  induction l with
  | nil => rfl
  | cons e l ih =>
    by_cases h : e.1 = k
    · simpa [adel, h] using ih
    · simpa [adel, alookup, h] using ih

/-! ## Claim C9: destroy is idempotent -/

/-- Claim C9: `excimer_timer_destroy` is idempotent.  On an already-invalid
timer it returns immediately with an empty trace (no diagnostic, no lock or
table action) and exactly the input state; and for every state, destroying a
timer twice yields the same state as destroying it once. -/
theorem destroy_idempotent (st : State) (tid p : Nat) :
    ((st.heap p).is_valid = false → excimer_timer_destroy st tid p = (st, [])) ∧
    (excimer_timer_destroy (excimer_timer_destroy st tid p).1 tid p).1
      = (excimer_timer_destroy st tid p).1 := by
  constructor
  · intro h
    simp [excimer_timer_destroy, h]
  · by_cases hv : (st.heap p).is_valid
    · by_cases ho : (st.heap p).event_counts_ptr = some tid
      · by_cases hr : (st.heap p).is_running <;>
          simp [excimer_timer_destroy, hv, ho, hr, updHeap, updThread]
      · simp [excimer_timer_destroy, hv, ho]
    · simp [excimer_timer_destroy, hv]

/-- Witness for C9 at a concrete input: the all-zero timer at pointer 7 of
`initState` is invalid, and destroying it is a silent no-op. -/
theorem destroy_idempotent_witness :
    (initState.heap 7).is_valid = false ∧
    excimer_timer_destroy initState 0 7 = (initState, []) := by
  refine ⟨by rfl, ?_⟩
  exact (destroy_idempotent initState 0 7).1 (by rfl)

/-! ## Claim C6: destroy from a non-owning thread is a diagnosed no-op -/

/-- Claim C6: calling `excimer_timer_destroy` on a valid timer from a thread
whose accumulator identity differs from the timer's recorded
`event_counts_ptr` back-reference emits exactly the "Cannot delete a timer
belonging to a different thread" diagnostic and leaves the state — flags,
registry and all tables — exactly as it was. -/
theorem destroy_wrong_thread (st : State) (tid p : Nat)
    (hv : (st.heap p).is_valid = true)
    (ho : (st.heap p).event_counts_ptr ≠ some tid) :
    excimer_timer_destroy st tid p = (st, [Action.diagnostic Diag.wrongThread]) := by
  simp [excimer_timer_destroy, hv, ho]

/-- Witness for C6: destroying thread 0's `sampleTimer` from thread 3 is
refused and changes nothing. -/
theorem destroy_wrong_thread_witness :
    (sampleState.heap 4).is_valid = true ∧
    (sampleState.heap 4).event_counts_ptr ≠ some 3 ∧
    excimer_timer_destroy sampleState 3 4
      = (sampleState, [Action.diagnostic Diag.wrongThread]) := by
  refine ⟨by rfl, by decide, ?_⟩
  exact destroy_wrong_thread sampleState 3 4 (by rfl) (by decide)

/-! ## Claim C7: dropped notifications are silent and effect-free -/

/-- Claim C7: a notification-handler invocation whose timer ID is absent
from the global registry, or whose timer is not running, takes and releases
only the global lock and returns: the state (accumulator, interrupt flag,
every table) is untouched and no diagnostic is reported. -/
theorem handle_drops_event (st : State) (id : Nat) (o : Int)
    (h : alookup st.g_timers_by_id id = none ∨
         ∃ p, alookup st.g_timers_by_id id = some p ∧ (st.heap p).is_running = false) :
    excimer_timer_handle st id o = (st, [Action.lockGlobal, Action.unlockGlobal]) := by
  rcases h with h | ⟨p, hp, hr⟩
  · simp [excimer_timer_handle, h]
  · simp [excimer_timer_handle, hp, hr]

/-- Witness for C7: a firing of the never-registered ID 9 against
`sampleState` is silently dropped. -/
theorem handle_drops_event_witness :
    alookup sampleState.g_timers_by_id 9 = none ∧
    excimer_timer_handle sampleState 9 2
      = (sampleState, [Action.lockGlobal, Action.unlockGlobal]) := by
  refine ⟨by rfl, ?_⟩
  exact handle_drops_event sampleState 9 2 (Or.inl (by rfl))

/-! ## Claim C2: destroy performs its steps in the specified order -/

/-- Claim C2: a valid, owner-called destroy executes exactly this sequence:
if the timer is running, clear `is_running` and stop the OS timer; then,
under the global lock, delete the ID from the global registry; then mark the
timer invalid; then, under the thread-local lock, delete the accumulator
entry and the thread-table entry; and only then delete the OS timer handle.
The trace equality in particular puts the global-registry removal strictly
before the thread-local-lock acquisition.  The state conjuncts confirm that
the deletions really happened: afterwards the ID resolves in neither the
registry, the accumulator, nor the thread-local table, and the timer is
invalid. -/
theorem destroy_step_order (st : State) (tid p : Nat)
    (hv : (st.heap p).is_valid = true)
    (ho : (st.heap p).event_counts_ptr = some tid) :
    (excimer_timer_destroy st tid p).2 =
      (if (st.heap p).is_running then [Action.clearRunning, Action.osTimerStop] else []) ++
      [Action.lockGlobal, Action.globalDel (st.heap p).id, Action.unlockGlobal,
       Action.markInvalid,
       Action.lockThread, Action.threadDelEventCount (st.heap p).id,
       Action.threadDelTimer (st.heap p).id, Action.unlockThread,
       Action.osTimerDelete] ∧
    alookup (excimer_timer_destroy st tid p).1.g_timers_by_id (st.heap p).id = none ∧
    ((excimer_timer_destroy st tid p).1.heap p).is_valid = false ∧
    ((excimer_timer_destroy st tid p).1.heap p).is_running = false ∧
    alookup ((excimer_timer_destroy st tid p).1.threads tid).event_counts (st.heap p).id
      = none ∧
    alookup ((excimer_timer_destroy st tid p).1.threads tid).timers_by_id (st.heap p).id
      = none := by
  by_cases hr : (st.heap p).is_running <;>
    simp [excimer_timer_destroy, hv, ho, hr, updHeap, updThread, alookup_adel_self]

/-- Witness for C2: destroying the running `sampleTimer` from its owning
thread performs the full step sequence, stop included. -/
theorem destroy_step_order_witness :
    (sampleState.heap 4).is_valid = true ∧
    (sampleState.heap 4).event_counts_ptr = some 0 ∧
    ((excimer_timer_destroy sampleState 0 4).2 =
      (if (sampleState.heap 4).is_running then [Action.clearRunning, Action.osTimerStop] else []) ++
      [Action.lockGlobal, Action.globalDel (sampleState.heap 4).id, Action.unlockGlobal,
       Action.markInvalid,
       Action.lockThread, Action.threadDelEventCount (sampleState.heap 4).id,
       Action.threadDelTimer (sampleState.heap 4).id, Action.unlockThread,
       Action.osTimerDelete] ∧
     alookup (excimer_timer_destroy sampleState 0 4).1.g_timers_by_id (sampleState.heap 4).id
       = none ∧
     ((excimer_timer_destroy sampleState 0 4).1.heap 4).is_valid = false ∧
     ((excimer_timer_destroy sampleState 0 4).1.heap 4).is_running = false ∧
     alookup ((excimer_timer_destroy sampleState 0 4).1.threads 0).event_counts
       (sampleState.heap 4).id = none ∧
     alookup ((excimer_timer_destroy sampleState 0 4).1.threads 0).timers_by_id
       (sampleState.heap 4).id = none) :=
  ⟨by rfl, by rfl, destroy_step_order sampleState 0 4 (by rfl) (by rfl)⟩

/-! ## Claim C3: start's zero-duration policy and arming behaviour -/

/-- Claim C3: for a valid timer, `excimer_timer_start` substitutes `period`
for an all-zero `initial`; if the effective initial value is still all-zero
it reports the zero-duration diagnostic, does not call into the OS timer,
and leaves the state (in particular `is_running`) unchanged, so a
not-running timer remains not running; otherwise it arms the OS timer with
the effective initial value and sets `is_running = true` exactly when the OS
start call succeeds (on OS failure the state is unchanged). -/
theorem start_zero_policy (st : State) (p : Nat) (period initial : Timespec)
    (osOk : Bool) (hv : (st.heap p).is_valid = true) :
    (excimer_timer_is_zero initial = true → excimer_timer_is_zero period = true →
       excimer_timer_start st p period initial osOk
         = (st, [Action.diagnostic Diag.startZeroDuration])) ∧
    (excimer_timer_is_zero initial = true → excimer_timer_is_zero period = false →
       (excimer_timer_start st p period initial osOk).2
           = [Action.osTimerStart period period] ∧
       (osOk = true →
          ((excimer_timer_start st p period initial osOk).1.heap p).is_running = true) ∧
       (osOk = false → (excimer_timer_start st p period initial osOk).1 = st)) ∧
    (excimer_timer_is_zero initial = false →
       (excimer_timer_start st p period initial osOk).2
           = [Action.osTimerStart period initial] ∧
       (osOk = true →
          ((excimer_timer_start st p period initial osOk).1.heap p).is_running = true) ∧
       (osOk = false → (excimer_timer_start st p period initial osOk).1 = st)) := by
  refine ⟨fun hi hp => ?_, fun hi hp => ?_, fun hi => ?_⟩
  · simp [excimer_timer_start, hv, hi, hp]
  · constructor
    · rcases osOk <;> simp [excimer_timer_start, hv, hi, hp]
    · constructor <;> intro hosk <;> subst hosk <;>
        simp [excimer_timer_start, hv, hi, hp, updHeap]
  · constructor
    · rcases osOk <;> simp [excimer_timer_start, hv, hi]
    · constructor <;> intro hosk <;> subst hosk <;>
        simp [excimer_timer_start, hv, hi, updHeap]

/-- Witness for C3: starting a fresh valid timer with `period = 2s` and
`initial = 0` arms the OS timer with effective initial value `2s`, and with
a successful OS call the timer is running. -/
theorem start_zero_policy_witness :
    (sampleState.heap 4).is_valid = true ∧
    excimer_timer_is_zero (⟨0, 0⟩ : Timespec) = true ∧
    excimer_timer_is_zero (⟨2, 0⟩ : Timespec) = false ∧
    ((excimer_timer_start sampleState 4 ⟨2, 0⟩ ⟨0, 0⟩ true).2
        = [Action.osTimerStart ⟨2, 0⟩ ⟨2, 0⟩] ∧
     (true = true →
        ((excimer_timer_start sampleState 4 ⟨2, 0⟩ ⟨0, 0⟩ true).1.heap 4).is_running = true) ∧
     (true = false → (excimer_timer_start sampleState 4 ⟨2, 0⟩ ⟨0, 0⟩ true).1 = sampleState)) :=
  ⟨by rfl, by rfl, by decide,
   (start_zero_policy sampleState 4 ⟨2, 0⟩ ⟨0, 0⟩ true (by rfl)).2.1 (by rfl) (by decide)⟩

/-! ## Claim C5: behaviour of init at ID-counter wrap-around -/

/-- Counterexample to claim C5 as stated: at the wrap-around point
(`next_id = 0`) `excimer_timer_init` does fail with the overflow diagnostic
and inserts nothing into any table, but the allocation state IS mutated —
`timer->id = excimer_timer_globals.next_id++` increments the counter before
the zero check, so `next_id` moves from 0 to 1. -/
theorem init_overflow_counterexample :
    (excimer_timer_init overflowState 0 7 0 5 6 true).2.1 = false ∧
    (excimer_timer_init overflowState 0 7 0 5 6 true).2.2
      = [Action.lockGlobal, Action.unlockGlobal, Action.diagnostic Diag.idOverflow] ∧
    overflowState.next_id = 0 ∧
    (excimer_timer_init overflowState 0 7 0 5 6 true).1.next_id ≠ overflowState.next_id := by
  refine ⟨by rfl, by rfl, by rfl, ?_⟩
  decide

/-- Claim C5, amended: at a call where the ID counter wraps to zero, `init`
fails deterministically with the overflow diagnostic and inserts no entry
into the global registry or any thread-local table — but the allocation
counter is still post-incremented (the only allocation-state mutation). -/
theorem init_overflow_no_table_mutation (st : State) (tid p event_type cbk ud : Nat)
    (osOk : Bool) (h : st.next_id % 2 ^ 64 = 0) :
    (excimer_timer_init st tid p event_type cbk ud osOk).2.1 = false ∧
    (excimer_timer_init st tid p event_type cbk ud osOk).2.2
      = [Action.lockGlobal, Action.unlockGlobal, Action.diagnostic Diag.idOverflow] ∧
    (excimer_timer_init st tid p event_type cbk ud osOk).1.g_timers_by_id
      = st.g_timers_by_id ∧
    (excimer_timer_init st tid p event_type cbk ud osOk).1.threads = st.threads ∧
    (excimer_timer_init st tid p event_type cbk ud osOk).1.next_id
      = (st.next_id + 1) % 2 ^ 64 := by
  have hl : st.next_id % 18446744073709551616 = 0 := h
  simp [excimer_timer_init, hl]

/-- Witness for the amended C5 at the concrete wrap-around state. -/
theorem init_overflow_no_table_mutation_witness :
    overflowState.next_id % 2 ^ 64 = 0 ∧
    ((excimer_timer_init overflowState 0 7 0 5 6 true).2.1 = false ∧
     (excimer_timer_init overflowState 0 7 0 5 6 true).2.2
       = [Action.lockGlobal, Action.unlockGlobal, Action.diagnostic Diag.idOverflow] ∧
     (excimer_timer_init overflowState 0 7 0 5 6 true).1.g_timers_by_id
       = overflowState.g_timers_by_id ∧
     (excimer_timer_init overflowState 0 7 0 5 6 true).1.threads
       = overflowState.threads ∧
     (excimer_timer_init overflowState 0 7 0 5 6 true).1.next_id
       = (overflowState.next_id + 1) % 2 ^ 64) :=
  ⟨by rfl, init_overflow_no_table_mutation overflowState 0 7 0 5 6 true (by rfl)⟩

/-! ## Claim C4: a timer whose OS-level create failed -/

/-- Claim C4 evaluated on the code, at the failing input: `init` on the
fresh state with `excimer_os_timer_create` failing (ID 1 allocated at
pointer 7, owning thread 0).  `init` returns `FAILURE` and the timer stays
registered in both tables, as the claim says — but because the code sets
`is_valid = 1` only after a successful create, the failed timer is invalid,
so the subsequent `excimer_timer_destroy` takes the already-invalid early
return and removes it from NEITHER table: both entries survive the destroy,
contradicting the claim (and §4.2 of the spec, which requires `destroy` to
deregister a failed timer). -/
theorem init_os_failure_destroy_leaves_entries :
    (excimer_timer_init initState 0 7 0 5 6 false).2.1 = false ∧
    alookup (excimer_timer_init initState 0 7 0 5 6 false).1.g_timers_by_id 1 = some 7 ∧
    alookup (((excimer_timer_init initState 0 7 0 5 6 false).1.threads 0).timers_by_id) 1
      = some 7 ∧
    ((excimer_timer_init initState 0 7 0 5 6 false).1.heap 7).is_valid = false ∧
    excimer_timer_destroy (excimer_timer_init initState 0 7 0 5 6 false).1 0 7
      = ((excimer_timer_init initState 0 7 0 5 6 false).1, []) ∧
    alookup (excimer_timer_destroy (excimer_timer_init initState 0 7 0 5 6 false).1 0 7).1.g_timers_by_id 1
      = some 7 ∧
    alookup ((excimer_timer_destroy (excimer_timer_init initState 0 7 0 5 6 false).1 0 7).1.threads 0).timers_by_id 1
      = some 7 := by
  refine ⟨by rfl, by rfl, by rfl, by rfl, ?_, by rfl, by rfl⟩
  rfl

/-! ## Claim C10: a failed init leaves an inert timer -/

/-- Claim C10: `init` zeroes the timer record up front, so whenever it
returns `FAILURE` (ID overflow or OS-create failure) the timer is left with
`is_valid = false` and `is_running = false`; consequently `start` on such a
timer is refused with the uninitialised-timer diagnostic, `get_time` returns
the zero duration, and `destroy` takes the already-invalid early return,
touching no table. -/
theorem failed_init_leaves_inert_timer :
    (∀ (st : State) (tid p event_type cbk ud : Nat) (osOk : Bool),
       (excimer_timer_init st tid p event_type cbk ud osOk).2.1 = false →
       ((excimer_timer_init st tid p event_type cbk ud osOk).1.heap p).is_valid = false ∧
       ((excimer_timer_init st tid p event_type cbk ud osOk).1.heap p).is_running = false) ∧
    (∀ (st : State) (p : Nat) (period initial : Timespec) (osOk : Bool),
       (st.heap p).is_valid = false →
       excimer_timer_start st p period initial osOk
         = (st, [Action.diagnostic Diag.startUninitialised])) ∧
    (∀ (st : State) (p : Nat) (osRemaining : Timespec),
       (st.heap p).is_valid = false →
       excimer_timer_get_time st p osRemaining = ⟨0, 0⟩) ∧
    (∀ (st : State) (tid p : Nat),
       (st.heap p).is_valid = false →
       excimer_timer_destroy st tid p = (st, [])) := by
  refine ⟨?_, ?_, ?_, ?_⟩
  · intro st tid p event_type cbk ud osOk hfail
    by_cases h0 : st.next_id % 18446744073709551616 = 0
    · constructor <;> simp [excimer_timer_init, h0, Timer.zeroed]
    · rcases osOk with _ | _
      · constructor <;>
          simp [excimer_timer_init, h0, updThread, Timer.zeroed]
      · exact absurd hfail (by simp [excimer_timer_init, h0, updThread, updHeap])
  · intro st p period initial osOk h
    simp [excimer_timer_start, h]
  · intro st p osRemaining h
    simp [excimer_timer_get_time, h]
  · intro st tid p h
    simp [excimer_timer_destroy, h]

/-- Witness for C10: the OS-create-failed init of
`init_os_failure_destroy_leaves_entries`'s scenario leaves an invalid,
not-running timer, whose start/get_time/destroy are all inert. -/
theorem failed_init_leaves_inert_timer_witness :
    (excimer_timer_init initState 0 7 0 5 6 false).2.1 = false ∧
    (((excimer_timer_init initState 0 7 0 5 6 false).1.heap 7).is_valid = false ∧
     ((excimer_timer_init initState 0 7 0 5 6 false).1.heap 7).is_running = false) ∧
    excimer_timer_start (excimer_timer_init initState 0 7 0 5 6 false).1 7 ⟨2, 0⟩ ⟨0, 0⟩ true
      = ((excimer_timer_init initState 0 7 0 5 6 false).1,
         [Action.diagnostic Diag.startUninitialised]) ∧
    excimer_timer_get_time (excimer_timer_init initState 0 7 0 5 6 false).1 7 ⟨9, 9⟩
      = ⟨0, 0⟩ ∧
    excimer_timer_destroy (excimer_timer_init initState 0 7 0 5 6 false).1 0 7
      = ((excimer_timer_init initState 0 7 0 5 6 false).1, []) :=
  ⟨by rfl,
   failed_init_leaves_inert_timer.1 initState 0 7 0 5 6 false (by rfl),
   failed_init_leaves_inert_timer.2.1 _ 7 ⟨2, 0⟩ ⟨0, 0⟩ true (by rfl),
   failed_init_leaves_inert_timer.2.2.1 _ 7 ⟨9, 9⟩ (by rfl),
   failed_init_leaves_inert_timer.2.2.2 _ 0 7 (by rfl)⟩

/-! ## Claim C1: accumulation across firings, one delivery per drain -/

theorem bump_nil (id : Nat) (v : Int) : bump [] id v = [(id, v)] := rfl

theorem bump_single (id : Nat) (c v : Int) :
    bump [(id, c)] id v = [(id, c + v)] := by
  simp [bump, alookup, aset]

theorem totalCount_cons (o : Int) (os : List Int) :
    totalCount (o :: os) = (o + 1) + totalCount os := by
  simp [totalCount]

/-- On the main path (timer registered and running, live back-reference),
the notification handler adds `overrun + 1` into the owning thread's
accumulator and raises the VM interrupt flag, and does nothing else. -/
theorem handle_run (st : State) (id : Nat) (o : Int) (p tid : Nat)
    (hg : alookup st.g_timers_by_id id = some p)
    (hr : (st.heap p).is_running = true)
    (he : (st.heap p).event_counts_ptr = some tid) :
    excimer_timer_handle st id o =
      ({ updThread st tid (fun ts => { ts with event_counts := bump ts.event_counts id (o + 1) }) with
           vm_interrupt := true },
       [Action.lockGlobal, Action.lockThread, Action.addEventCount id (o + 1),
        Action.setInterruptFlag, Action.unlockThread, Action.unlockGlobal]) := by
  simp [excimer_timer_handle, hg, hr, he]

/-- Iterating the notification handler while the accumulator holds the
single entry `(id, c)` preserves the registry, the heap and every
thread-local timer table, and leaves the entry at `c + sum (o_i + 1)`. -/
theorem handleMany_single (id p tid : Nat) (os : List Int) :
    ∀ (st : State) (c : Int),
      alookup st.g_timers_by_id id = some p →
      (st.heap p).is_running = true →
      (st.heap p).event_counts_ptr = some tid →
      (st.threads tid).event_counts = [(id, c)] →
      (handleMany st id os).g_timers_by_id = st.g_timers_by_id ∧
      (handleMany st id os).heap = st.heap ∧
      (∀ u, ((handleMany st id os).threads u).timers_by_id = (st.threads u).timers_by_id) ∧
      ((handleMany st id os).threads tid).event_counts = [(id, c + totalCount os)] := by
  induction os with
  | nil =>
    intro st c hg hr he hec
    refine ⟨rfl, rfl, fun u => rfl, ?_⟩
    simpa [handleMany, totalCount] using hec
  | cons o os ih =>
    intro st c hg hr he hec
    have hstep := handle_run st id o p tid hg hr he
    have hst1 : (excimer_timer_handle st id o).1 =
        { updThread st tid (fun ts => { ts with event_counts := bump ts.event_counts id (o + 1) }) with
            vm_interrupt := true } := by
      rw [hstep]
    have hm : handleMany st id (o :: os) = handleMany (excimer_timer_handle st id o).1 id os := rfl
    have hg1 : alookup (excimer_timer_handle st id o).1.g_timers_by_id id = some p := by
      rw [hst1]; simpa using hg
    have hr1 : ((excimer_timer_handle st id o).1.heap p).is_running = true := by
      rw [hst1]; simpa using hr
    have he1 : ((excimer_timer_handle st id o).1.heap p).event_counts_ptr = some tid := by
      rw [hst1]; simpa using he
    have hec1 : ((excimer_timer_handle st id o).1.threads tid).event_counts
        = [(id, c + (o + 1))] := by
      rw [hst1]
      simp [updThread, hec, bump_single]
    obtain ⟨ha, hb, hc, hd⟩ := ih (excimer_timer_handle st id o).1 (c + (o + 1)) hg1 hr1 he1 hec1
    refine ⟨?_, ?_, ?_, ?_⟩
    · rw [hm, ha, hst1]; rfl
    · rw [hm, hb, hst1]; rfl
    · intro u
      rw [hm, hc u, hst1]
      simp [updThread]
      split <;> rfl
    · rw [hm, hd, totalCount_cons]
      congr 2
      omega

theorem invokedPairs_append (l1 l2 : List Action) :
    invokedPairs (l1 ++ l2) = invokedPairs l1 ++ invokedPairs l2 := by
  simp [invokedPairs]

/-- Only the drain loop contributes callback invocations to the interrupt
handler's trace. -/
theorem invokedPairs_interrupt (cb : CbSem) (st : State) (tid : Nat) :
    invokedPairs (excimer_timer_interrupt cb st tid).2
      = invokedPairs (interruptDrain cb tid (st.threads tid).event_counts
          (updThread st tid fun ts => { ts with event_counts := [] })).2 := by
  simp only [excimer_timer_interrupt, invokedPairs_append]
  cases h : (interruptDrain cb tid (st.threads tid).event_counts
      (updThread st tid fun ts => { ts with event_counts := [] })).1.old_handler <;>
    simp [h, invokedPairs]

/-- Claim C1: if a registered, running timer with a live back-reference to
thread `tid` fires `N ≥ 1` times with OS overrun counts `os = o_1..o_N`
while thread `tid`'s accumulator is empty, the notification handler leaves
the accumulator holding exactly one entry for the timer's ID with count
`sum (o_i + 1)`, and a single interrupt-handler drain then invokes that
timer's callback exactly once, with that total count — not `N` times. -/
theorem notification_counts_single_drain (st : State) (tid p id : Nat)
    (os : List Int) (cb : CbSem)
    (hos : os ≠ [])
    (hg : alookup st.g_timers_by_id id = some p)
    (hr : (st.heap p).is_running = true)
    (he : (st.heap p).event_counts_ptr = some tid)
    (hacc : (st.threads tid).event_counts = [])
    (ht : alookup (st.threads tid).timers_by_id id = some p) :
    ((handleMany st id os).threads tid).event_counts = [(id, totalCount os)] ∧
    invokedPairs (excimer_timer_interrupt cb (handleMany st id os) tid).2
      = [(id, totalCount os)] := by
  obtain ⟨o, os', rfl⟩ := List.exists_cons_of_ne_nil hos
  have hstep := handle_run st id o p tid hg hr he
  have hst1 : (excimer_timer_handle st id o).1 =
      { updThread st tid (fun ts => { ts with event_counts := bump ts.event_counts id (o + 1) }) with
          vm_interrupt := true } := by
    rw [hstep]
  have hg1 : alookup (excimer_timer_handle st id o).1.g_timers_by_id id = some p := by
    rw [hst1]; simpa using hg
  have hr1 : ((excimer_timer_handle st id o).1.heap p).is_running = true := by
    rw [hst1]; simpa using hr
  have he1 : ((excimer_timer_handle st id o).1.heap p).event_counts_ptr = some tid := by
    rw [hst1]; simpa using he
  have hec1 : ((excimer_timer_handle st id o).1.threads tid).event_counts = [(id, o + 1)] := by
    rw [hst1]
    simp [updThread, hacc, bump_nil]
  have hm : handleMany st id (o :: os') = handleMany (excimer_timer_handle st id o).1 id os' := rfl
  obtain ⟨ha, hb, hc, hd⟩ :=
    handleMany_single id p tid os' (excimer_timer_handle st id o).1 (o + 1) hg1 hr1 he1 hec1
  have hacc' : ((handleMany st id (o :: os')).threads tid).event_counts
      = [(id, totalCount (o :: os'))] := by
    rw [hm, hd, totalCount_cons]
  have htab' : alookup ((handleMany st id (o :: os')).threads tid).timers_by_id id = some p := by
    rw [hm, hc tid, hst1]
    simpa [updThread] using ht
  refine ⟨hacc', ?_⟩
  rw [invokedPairs_interrupt, hacc']
  simp only [interruptDrain, updThread_threads_self, invokedPairs]
  rw [htab']
  simp [interruptDrain, invokedPairs]

/-- Witness for C1: three firings with overrun counts 2, 0, 3 against
`sampleState` accumulate `3 + 1 + 4 = 8` and deliver one callback with
count 8. -/
theorem notification_counts_single_drain_witness :
    (((handleMany sampleState 1 [2, 0, 3]).threads 0).event_counts
        = [(1, totalCount [2, 0, 3])] ∧
     invokedPairs (excimer_timer_interrupt cbId (handleMany sampleState 1 [2, 0, 3]) 0).2
        = [(1, totalCount [2, 0, 3])]) ∧
    totalCount [2, 0, 3] = 8 :=
  ⟨notification_counts_single_drain sampleState 0 4 1 [2, 0, 3] cbId
      (by decide) (by rfl) (by rfl) (by rfl) (by rfl) (by rfl),
   by decide⟩

/-! ## Claim C8: the interrupt handler's drain protocol -/

/-- Every action the drain loop emits is a callback invocation whose
`(id, count)` pair is an entry of the swapped-out accumulator. -/
theorem interruptDrain_sound (cb : CbSem) (tid : Nat) :
    ∀ (entries : List (Nat × Int)) (s : State) (a : Action),
      a ∈ (interruptDrain cb tid entries s).2 →
      ∃ id c, a = Action.invokeCallback id c ∧ (id, c) ∈ entries := by
  intro entries
  induction entries with
  | nil =>
    intro s a ha
    simp [interruptDrain] at ha
  | cons e rest ih =>
    intro s a ha
    obtain ⟨id, cnt⟩ := e
    rcases htab : alookup (s.threads tid).timers_by_id id with _ | p
    · rw [interruptDrain, htab] at ha
      obtain ⟨id', c', heq, hmem⟩ := ih s a ha
      exact ⟨id', c', heq, List.mem_cons_of_mem _ hmem⟩
    · rw [interruptDrain, htab] at ha
      rcases List.mem_cons.1 ha with h | h
      · exact ⟨id, cnt, h, List.mem_cons_self _ _⟩
      · obtain ⟨id', c', heq, hmem⟩ :=
          ih (cb (s.heap p).callback cnt (s.heap p).user_data s) a h
        exact ⟨id', c', heq, List.mem_cons_of_mem _ hmem⟩

/-- If an ID is absent from the thread-local table and the callbacks never
re-add it, the drain loop never invokes a callback for it: entries of
destroyed timers are skipped. -/
theorem interruptDrain_skips_absent (cb : CbSem) (tid id : Nat)
    (hcb : ∀ tok c ud s, alookup (s.threads tid).timers_by_id id = none →
             alookup ((cb tok c ud s).threads tid).timers_by_id id = none) :
    ∀ (entries : List (Nat × Int)) (s : State),
      alookup (s.threads tid).timers_by_id id = none →
      ∀ c, Action.invokeCallback id c ∉ (interruptDrain cb tid entries s).2 := by
  intro entries
  induction entries with
  | nil =>
    intro s habs c h
    simp [interruptDrain] at h
  | cons e rest ih =>
    intro s habs c h
    obtain ⟨id', cnt'⟩ := e
    rcases htab : alookup (s.threads tid).timers_by_id id' with _ | p
    · rw [interruptDrain, htab] at h
      exact ih s habs c h
    · rw [interruptDrain, htab] at h
      rcases List.mem_cons.1 h with heq | hmem
      · obtain ⟨rfl, rfl⟩ : id = id' ∧ c = cnt' := by
          simpa using heq
        rw [habs] at htab
        cases htab
      · exact ih (cb (s.heap p).callback cnt' (s.heap p).user_data s)
          (hcb _ _ _ _ habs) c hmem

/-- When the callbacks leave the thread-local timer table unchanged, the
drain delivers exactly the accumulator entries whose timer is still present,
in accumulator order, each with its accumulated count. -/
theorem interruptDrain_exact (cb : CbSem) (tid : Nat)
    (hcb : ∀ tok c ud s, ((cb tok c ud s).threads tid).timers_by_id
             = (s.threads tid).timers_by_id) :
    ∀ (entries : List (Nat × Int)) (s : State),
      invokedPairs (interruptDrain cb tid entries s).2
        = entries.filter fun e => (alookup (s.threads tid).timers_by_id e.1).isSome := by
  intro entries
  induction entries with
  | nil =>
    intro s
    simp [interruptDrain, invokedPairs]
  | cons e rest ih =>
    intro s
    obtain ⟨id, cnt⟩ := e
    rcases htab : alookup (s.threads tid).timers_by_id id with _ | p
    · rw [interruptDrain, htab]
      rw [ih s]
      simp [List.filter_cons, htab]
    · rw [interruptDrain, htab]
      have hrec := ih (cb (s.heap p).callback cnt (s.heap p).user_data s)
      rw [hcb] at hrec
      simp only [invokedPairs, List.filterMap_cons] at hrec ⊢
      rw [hrec]
      simp [List.filter_cons, htab]

/-- Claim C8: one interrupt-handler invocation (a) swaps the accumulator
for a fresh empty one, leaving the registry, the heap and every timer table
untouched; (b) its trace is exactly the swap bracketed by the thread-local
lock, released before any callback, then the drain of the swapped-out
accumulator, then the free of the old accumulator, then the chain to the
previously installed handler exactly when one exists; (c) each drained
action is a callback invocation for an entry `(id, count)` of the
swapped-out accumulator; (d) an ID absent from the thread-local table — for
example removed by a destroy run from an earlier callback of the same drain
— and never re-added is skipped; (e) with table-preserving callbacks,
exactly the still-present entries are delivered, in order, with their
accumulated counts. -/
theorem interrupt_handler_spec (cb : CbSem) (st : State) (tid : Nat) :
    (((updThread st tid fun ts => { ts with event_counts := [] }).threads tid).event_counts
        = [] ∧
     (updThread st tid fun ts => { ts with event_counts := [] }).g_timers_by_id
        = st.g_timers_by_id ∧
     (updThread st tid fun ts => { ts with event_counts := [] }).heap = st.heap ∧
     (∀ u, ((updThread st tid fun ts => { ts with event_counts := [] }).threads u).timers_by_id
        = (st.threads u).timers_by_id)) ∧
    (excimer_timer_interrupt cb st tid).2
      = [Action.lockThread, Action.swapAccumulator, Action.unlockThread] ++
        (interruptDrain cb tid (st.threads tid).event_counts
          (updThread st tid fun ts => { ts with event_counts := [] })).2 ++
        [Action.freeAccumulator] ++
        (if (excimer_timer_interrupt cb st tid).1.old_handler then [Action.chainOldHandler]
         else []) ∧
    (∀ entries s a, a ∈ (interruptDrain cb tid entries s).2 →
       ∃ id c, a = Action.invokeCallback id c ∧ (id, c) ∈ entries) ∧
    (∀ id, (∀ tok c ud s, alookup (s.threads tid).timers_by_id id = none →
              alookup ((cb tok c ud s).threads tid).timers_by_id id = none) →
       ∀ entries s, alookup (s.threads tid).timers_by_id id = none →
         ∀ c, Action.invokeCallback id c ∉ (interruptDrain cb tid entries s).2) ∧
    ((∀ tok c ud s, ((cb tok c ud s).threads tid).timers_by_id
         = (s.threads tid).timers_by_id) →
       ∀ entries s, invokedPairs (interruptDrain cb tid entries s).2
         = entries.filter fun e => (alookup (s.threads tid).timers_by_id e.1).isSome) := by
  refine ⟨⟨?_, rfl, rfl, fun u => ?_⟩, rfl, interruptDrain_sound cb tid,
    fun id hcb => interruptDrain_skips_absent cb tid id hcb,
    fun hcb => interruptDrain_exact cb tid hcb⟩
  · simp [updThread]
  · by_cases hu : u = tid <;> simp [updThread, hu]

/-- Witness for C8 at a concrete drain: thread 0 of `drainState` holds
accumulated entries for IDs 1 and 2 but only ID 1 is still in the
thread-local table, so with a pure callback exactly `(1, 3)` is
delivered. -/
theorem interrupt_handler_spec_witness :
    invokedPairs (interruptDrain cbId 0 [(1, 3), (2, 5)]
        (updThread drainState 0 fun ts => { ts with event_counts := [] })).2
      = [(1, 3)] := by
  have h := (interrupt_handler_spec cbId drainState 0).2.2.2.2
      (fun tok c ud s => rfl) [(1, 3), (2, 5)]
      (updThread drainState 0 fun ts => { ts with event_counts := [] })
  rw [h]
  decide

end Excimer
